import Mathlib

/-!
Shallow embedding of `src/auth.ts` (frederi-sync): a Hono HTTP service that
upserts an iOS contact payload into a Notion workspace.

The embedding models:
* the `protect` middleware (authorization gate);
* the zod validation schema of `POST /ios-contact`;
* the field normalizer (label-based selection over emails/phones/addresses,
  address display strings);
* the property-set construction (JavaScript object spreads guarded by
  truthiness `x && {...}`);
* the organization resolver (query-or-create);
* the contact upserter (query, then create or update the first match);
* the `onError` translator.

JavaScript conventions mirrored here:
* an optional string is `Option String`; `undefined` is `none`;
* the truthiness guard `x && {...}` on a string drops both `undefined`
  and the empty string, modelled by `optTruthy`;
* `arr?.filter(p)[0]?.f` is `Option.bind` + `List.filter` + `head?` + `map`.

The Notion client is an external collaborator; it is modelled as an oracle
(`Store`) giving the results of queries and the identifiers assigned on
creation, together with a trace of the calls the handler issues.
-/

namespace FrederiSync

/-- An entry of the `emails` array: `{ email: z.string().email(), label: z.string() }`. -/
structure EmailEntry where
  email : String
  label : String
deriving DecidableEq, Repr

/-- An entry of the `phones` array: `{ label: z.string(), number: z.string() }`. -/
structure PhoneEntry where
  label : String
  number : String
deriving DecidableEq, Repr

/-- An entry of the `addresses` array (all sub-fields optional in the schema). -/
structure AddressEntry where
  city : Option String
  street : Option String
  country : Option String
  zip : Option String
  state : Option String
  label : Option String
deriving DecidableEq, Repr

/-- One validated contact object (an element of the request body after the
zod schema has accepted it).  `addresses` is a list of *optional* entries,
matching `z.object({...}).optional().array().optional()`; `source` is the
string admitted by `z.enum(["ios-contact"]).optional().default("ios-contact")`. -/
structure ContactPayload where
  firstName : Option String
  organization : Option String
  lastName : String
  emails : Option (List EmailEntry)
  addresses : Option (List (Option AddressEntry))
  phones : Option (List PhoneEntry)
  note : Option String
  website : Option String
  jobTitle : Option String
  source : String
deriving DecidableEq, Repr

/-- JavaScript truthiness of an optional string: `undefined` and `""` are
falsy, every other string truthy.  `optTruthy o` is `some s` exactly when
`o` holds a truthy string `s`; it models the guard `...(x && { ... })`. -/
def optTruthy : Option String → Option String
  | none => none
  | some s => if s = "" then none else some s

/-- `emails?.filter((email) => email.label === "Work")[0]?.email` (line 114). -/
def workEmail (p : ContactPayload) : Option String :=
  p.emails.bind fun es => ((es.filter fun e => e.label == "Work").head?).map (·.email)

/-- `emails?.filter((email) => email.label === "Home")[0]?.email` (line 116). -/
def homeEmail (p : ContactPayload) : Option String :=
  p.emails.bind fun es => ((es.filter fun e => e.label == "Home").head?).map (·.email)

/-- `phones?.filter((phone) => phone.label === "Main")[0]?.number` (line 119). -/
def mainPhone (p : ContactPayload) : Option String :=
  p.phones.bind fun ps => ((ps.filter fun ph => ph.label == "Main").head?).map (·.number)

/-- `phones?.filter((phone) => phone.label === "Work")[0]?.number` (line 121). -/
def workPhone (p : ContactPayload) : Option String :=
  p.phones.bind fun ps => ((ps.filter fun ph => ph.label == "Work").head?).map (·.number)

/-- `phones?.filter((phone) => ["iPhone", "Mobile"].includes(phone.label))[0]?.number`
(line 123). -/
def mobilePhone (p : ContactPayload) : Option String :=
  p.phones.bind fun ps =>
    ((ps.filter fun ph => ph.label == "iPhone" || ph.label == "Mobile").head?).map (·.number)

/-- `phones?.filter((phone) => phone.label === "Home")[0]` (line 126): the whole
entry, not its number. -/
def homePhone (p : ContactPayload) : Option PhoneEntry :=
  p.phones.bind fun ps => (ps.filter fun ph => ph.label == "Home").head?

/-- `addresses?.filter((address) => address?.label === "Work")[0]` (line 128);
an `undefined` element or an `undefined` label fails the comparison.  JavaScript
flattens the possibly-`undefined` element into the overall `undefined`, hence
the final `Option.join`. -/
def workAddressData (p : ContactPayload) : Option AddressEntry :=
  (p.addresses.bind fun as =>
    (as.filter fun a => (a.bind (·.label)) == some "Work").head?).join

/-- `addresses?.filter((address) => address?.label === "Home")[0]` (line 140). -/
def homeAddressData (p : ContactPayload) : Option AddressEntry :=
  (p.addresses.bind fun as =>
    (as.filter fun a => (a.bind (·.label)) == some "Home").head?).join

/-- One step of the address-string accumulation:
`if (data?.f) s += data.f + " "`, where the guard is JavaScript truthiness
(skips `undefined` and `""`). -/
def appendAddressField (acc : String) (f : Option String) : String :=
  match f with
  | none => acc
  | some v => if v = "" then acc else acc ++ v ++ " "

/-- The address display string built at lines 132-138 / 144-150: starting from
`""`, append street, zip, city, country in that order, each truthy sub-field
followed by a space.  When the selected entry is `undefined` every guard
`data?.f` is falsy and the string stays `""`. -/
def buildAddress (d : Option AddressEntry) : String :=
  appendAddressField
    (appendAddressField
      (appendAddressField
        (appendAddressField "" (d.bind (·.street)))
        (d.bind (·.zip)))
      (d.bind (·.city)))
    (d.bind (·.country))

/-- The property set sent to the external store (the `properties` object of
lines 190-300).  A Lean field is `none` exactly when the JavaScript key is
absent from the object (the spread `...(x && {...})` contributed nothing);
`some v` carries the typed value.  `lastNameTitle` ("Last Name", title) and
`sourceSelect` ("Source", select) are unconditional keys. -/
structure Properties where
  lastNameTitle : String
  firstNameText : Option String
  emailWork : Option String
  emailHome : Option String
  phoneMain : Option String
  phoneWork : Option String
  phoneMobile : Option String
  phoneHome : Option String
  addressWork : Option String
  addressHome : Option String
  iosNotes : Option String
  websiteUrl : Option String
  jobTitleText : Option String
  organizationRel : Option String
  sourceSelect : String
deriving DecidableEq, Repr

/-- The `properties` object of lines 190-300, as a function of the payload and
of the `organizationId` variable in scope.  Each optional key mirrors a spread
`...(x && { ... })`: present exactly when the guard `x` is truthy.  Note the
asymmetries of the source: the `Home` phone guard is the *entry* object
(line 236, always truthy when defined) with value `homePhone.number`, and the
two address guards are the selected *entry* objects (lines 241, 252) with the
accumulated display string as value.  The `Organization` key (line 290) is
guarded by the raw `organization` string; its value is `organizationId as
string` — the handler only builds `properties` after the resolver has assigned
`organizationId`, so the cast never sees `undefined` there. -/
def buildProperties (p : ContactPayload) (organizationId : Option String) : Properties where
  lastNameTitle := p.lastName
  firstNameText := optTruthy p.firstName
  emailWork := optTruthy (workEmail p)
  emailHome := optTruthy (homeEmail p)
  phoneMain := optTruthy (mainPhone p)
  phoneWork := optTruthy (workPhone p)
  phoneMobile := optTruthy (mobilePhone p)
  phoneHome := (homePhone p).map (·.number)
  addressWork := if (workAddressData p).isSome then some (buildAddress (workAddressData p)) else none
  addressHome := if (homeAddressData p).isSome then some (buildAddress (homeAddressData p)) else none
  iosNotes := optTruthy p.note
  websiteUrl := optTruthy p.website
  jobTitleText := optTruthy p.jobTitle
  organizationRel := if (optTruthy p.organization).isSome then organizationId else none
  sourceSelect := if p.source == "ios-contact" then "iOS Contact" else p.source

/-- A call the handler issues to the Notion client, with the arguments that
matter: the filter of a query, the title of a created organization, the
property set of a created/updated contact, the page id of an update. -/
inductive StoreCall where
  | queryOrganizations (titleEquals : String)
  | createOrganization (title : String)
  | queryContacts (lastNameEquals : String) (firstNameEquals : String)
  | createContact (props : Properties)
  | updateContact (pageId : String) (props : Properties)
deriving DecidableEq, Repr

/-- Oracle for the external store: what each query returns (a list of record
ids, in result order) and which id the store assigns to each created record.
`update` is the Notion `pages.update` contract: it returns the record whose
`page_id` was passed, so its `id` needs no oracle field. -/
structure Store where
  orgQueryResults : String → List String
  orgCreateId : String → String
  contactQueryResults : String → String → List String
  contactCreateId : String

/-- Lines 156-188: the `organizationId` resolution.  Skipped entirely when
`organization` is falsy (`if (organization)`).  Otherwise query the
organizations collection for `Name` title equals `organization` and take
`results[0]?.id`; if that is `undefined`, create an organization with that
title and take the created id.  Returns the resulting `organizationId`
together with the store calls made. -/
def resolveOrganization (st : Store) (organization : Option String) :
    Option String × List StoreCall :=
  match optTruthy organization with
  | none => (none, [])
  | some org =>
    match (st.orgQueryResults org).head? with
    | some id => (some id, [.queryOrganizations org])
    | none => (some (st.orgCreateId org), [.queryOrganizations org, .createOrganization org])

/-- A response body.  `contactResult` is the JSON of lines 333-341 / 349-354
(`c.json` drops a key whose value is `undefined`, hence `Option` for
`firstName`); `errorMsg` is `{message: ...}`; `unauthorizedJson` is
`{"error":"Unauthorized"}`; `text` a plain-text body; `validationFailure`
the zod-validator default 400 payload (its exact JSON shape is the
validation library's own and is not modelled further). -/
inductive Body where
  | contactResult (message : String) (pageId : String)
      (firstName : Option String) (lastName : String)
  | errorMsg (message : String)
  | unauthorizedJson
  | text (s : String)
  | validationFailure
deriving DecidableEq, Repr

/-- An HTTP response: status code and body. -/
structure Response where
  status : Nat
  body : Body
deriving DecidableEq, Repr

/-- Lines 302-355: the upsert.  Query the contacts collection with the
conjunctive filter (`Last Name` title equals `lastName`) and (`First Name`
rich_text equals `firstName ?? ""`).  If `results.length === 0`, create a
contact with `properties` and answer 201; otherwise update the page
`results[0].id` and answer 200 with `updateResponse.id` (which, by the
store contract, is the id the update was called with). -/
def handleIosContact (st : Store) (p : ContactPayload) : Response × List StoreCall :=
  let resolved := resolveOrganization st p.organization
  let props := buildProperties p resolved.1
  let fnFilter := p.firstName.getD ""
  let results := st.contactQueryResults p.lastName fnFilter
  match results.head? with
  | none =>
    (⟨201, .contactResult "Successfully created contact" st.contactCreateId
        p.firstName p.lastName⟩,
      resolved.2 ++ [.queryContacts p.lastName fnFilter, .createContact props])
  | some firstId =>
    (⟨200, .contactResult "Successfully updated contact" firstId
        p.firstName p.lastName⟩,
      resolved.2 ++ [.queryContacts p.lastName fnFilter, .updateContact firstId props])

/-- `url.pathname.startsWith("/public")` (line 6): JavaScript
`String.prototype.startsWith` is a character-prefix test, embedded here as a
prefix test on the character lists. -/
def pathStartsWithPublic (path : String) : Bool :=
  "/public".data.isPrefixOf path.data

/-- Lines 4-14 (`protect` in `auth.ts`): allow a pathname starting with
`"/public"` through unconditionally; otherwise require the `Authorization`
header to strictly equal the configured password, answering 401
`{"error":"Unauthorized"}` when it differs or is absent (`undefined !==
password`).  `none` means "call `next()`", `some r` means short-circuit
with response `r`. -/
def protect (pathname : String) (authHeader : Option String) (password : String) :
    Option Response :=
  if pathStartsWithPublic pathname then none
  else if authHeader == some password then none
  else some ⟨401, .unauthorizedJson⟩

/-- Lines 48-50: `GET /public` behind the `protect` middleware. -/
def handleGetPublic (authHeader : Option String) (password : String) : Response :=
  match protect "/public" authHeader password with
  | some r => r
  | none => ⟨200, .text "Hello World"⟩

/-- An error reaching `app.onError`.  `notionClient code` is an error for
which `isNotionClientError` holds, carrying its machine-readable string code
(`APIErrorCode.Unauthorized` is the string `"unauthorized"`); `jsError` is any
other thrown value (TypeError, network failure, ...), with its message kept
only to show the translation ignores it. -/
inductive AppError where
  | notionClient (code : String)
  | jsError (details : String)
deriving DecidableEq, Repr

/-- Lines 35-47: `app.onError`.  A Notion client error whose code is the
unauthorized code gets 401 with a distinguished message; every other error
(other Notion codes fall through the `switch`) gets 500 with a generic
message. -/
def onError : AppError → Response
  | .notionClient code =>
    if code == "unauthorized" then
      ⟨401, .errorMsg "Notion responded with an unauthorized error"⟩
    else ⟨500, .errorMsg "An error occurred"⟩
  | .jsError _ => ⟨500, .errorMsg "An error occurred"⟩

/-- One raw element of the request body, before validation: the same shape as
`ContactPayload` but with `lastName` possibly missing and `source`
unconstrained.  (Non-string JSON types for these fields are rejected by zod
as well; the model already separates the one required field and the two
value-constrained ones, which is what the claims exercise.) -/
structure RawContact where
  firstName : Option String
  organization : Option String
  lastName : Option String
  emails : Option (List EmailEntry)
  addresses : Option (List (Option AddressEntry))
  phones : Option (List PhoneEntry)
  note : Option String
  website : Option String
  jobTitle : Option String
  source : Option String
deriving DecidableEq, Repr

/-- Lines 52-97: validation of one element by the zod schema, parametrized by
the email-syntax predicate of `z.string().email()` (the validation library's
own regex, a black box to this repository).  The element is accepted iff
`lastName` is present, every entry of `emails` satisfies the email predicate,
and `source`, when present, is the literal `"ios-contact"`
(`z.enum(["ios-contact"]).optional().default("ios-contact")` fills in
`"ios-contact"` when absent). -/
def validate (emailOk : String → Bool) (r : RawContact) : Option ContactPayload :=
  match r.lastName with
  | none => none
  | some ln =>
    if (r.emails.getD []).all (fun e => emailOk e.email) then
      match r.source with
      | none => some ⟨r.firstName, r.organization, ln, r.emails, r.addresses,
          r.phones, r.note, r.website, r.jobTitle, "ios-contact"⟩
      | some s =>
        if s = "ios-contact" then
          some ⟨r.firstName, r.organization, ln, r.emails, r.addresses,
            r.phones, r.note, r.website, r.jobTitle, s⟩
        else none
    else none

/-- The schema is `object(...).array()`: every element must validate, and the
validated elements are returned in order. -/
def validateBody (emailOk : String → Bool) : List RawContact → Option (List ContactPayload)
  | [] => some []
  | r :: rs =>
    match validate emailOk r with
    | none => none
    | some p =>
      match validateBody emailOk rs with
      | none => none
      | some ps => some (p :: ps)

/-- The `POST /ios-contact` pipeline after the gate: run the zod validator
(its default hook answers 400 on failure — the custom hook at line 94 only
logs and returns nothing, so the default applies); on success, destructure
the first element (`const [{...}] = c.req.valid("json")`), which on an empty
array throws a TypeError that `app.onError` translates; otherwise run the
handler.  Returns the response and the store calls made. -/
def postIosContact (emailOk : String → Bool) (st : Store) (body : List RawContact) :
    Response × List StoreCall :=
  match validateBody emailOk body with
  | none => (⟨400, .validationFailure⟩, [])
  | some payloads =>
    match payloads.head? with
    | none => (onError (.jsError "TypeError: cannot destructure"), [])
    | some p => handleIosContact st p

/-- A full request to `POST /ios-contact`: the `protect` middleware first
(the pathname `"/ios-contact"` is not under the public prefix), then the
validated pipeline. -/
def requestIosContact (emailOk : String → Bool) (st : Store) (password : String)
    (authHeader : Option String) (body : List RawContact) :
    Response × List StoreCall :=
  match protect "/ios-contact" authHeader password with
  | some r => (r, [])
  | none => postIosContact emailOk st body

/-! ### Spec-side definitions and concrete instances

`specAddressConcat` is written from the spec's words ("each present sub-field
followed by a trailing space"), to be compared with the source-derived
`buildAddress`.  `truthySubField` is the amended reading ("each present
*non-empty* sub-field").  The remaining definitions are concrete payloads and
stores used to evaluate the development on closed inputs. -/

/-- Spec-side: the claimed per-sub-field contribution — a *present* sub-field
contributes its value followed by a trailing space, an absent one contributes
nothing. -/
def specSubField : Option String → String
  | none => ""
  | some v => v ++ " "

/-- Spec-side: the claimed address display string — street, zip, city, country
in fixed order, each present sub-field followed by a trailing space. -/
def specAddressConcat (a : AddressEntry) : String :=
  specSubField a.street ++ specSubField a.zip ++ specSubField a.city ++ specSubField a.country

/-- Amended per-sub-field contribution: only a present *non-empty* (JavaScript
truthy) sub-field contributes its value followed by a trailing space. -/
def truthySubField : Option String → String
  | none => ""
  | some v => if v = "" then "" else v ++ " "

/-- A store whose queries return nothing. -/
def stEmpty : Store where
  orgQueryResults := fun _ => []
  orgCreateId := fun n => "org-" ++ n
  contactQueryResults := fun _ _ => []
  contactCreateId := "new-id"

/-- A store whose contact query finds one existing record `"abc123"`. -/
def stFound : Store where
  orgQueryResults := fun _ => []
  orgCreateId := fun n => "org-" ++ n
  contactQueryResults := fun _ _ => ["abc123"]
  contactCreateId := "new-id"

/-- Payload `{lastName:"Doe", firstName:"Jane"}` with no other fields. -/
def payloadJane : ContactPayload :=
  ⟨some "Jane", none, "Doe", none, none, none, none, none, none, "ios-contact"⟩

/-- Payload whose `firstName` is the *present but empty* string. -/
def payloadEmptyFirst : ContactPayload :=
  ⟨some "", none, "Doe", none, none, none, none, none, none, "ios-contact"⟩

/-- Payload whose `organization` is the *present but empty* string. -/
def payloadEmptyOrg : ContactPayload :=
  ⟨none, some "", "Doe", none, none, none, none, none, none, "ios-contact"⟩

/-- Payload with phones labeled `"iPhone"` then `"Mobile"` and one `"Home"`
email, used to evaluate the selection claims. -/
def payloadPhones : ContactPayload :=
  ⟨none, none, "Doe", some [⟨"a@b.co", "Home"⟩], none,
    some [⟨"iPhone", "111"⟩, ⟨"Mobile", "222"⟩], none, none, none, "ios-contact"⟩

/-- Address with `street` present but empty, `city` and `country` present. -/
def addrEmptyStreet : AddressEntry :=
  ⟨some "Paris", some "", some "France", none, none, some "Home"⟩

/-- Payload whose `organization` is `"Acme"` and nothing else optional. -/
def payloadAcme : ContactPayload :=
  ⟨none, some "Acme", "Doe", none, none, none, none, none, none, "ios-contact"⟩

/-- A raw body element missing the required `lastName`. -/
def rawNoLastName : RawContact :=
  ⟨some "Jane", none, none, none, none, none, none, none, none, none⟩

/-- A raw body element with only `lastName` present. -/
def rawOnlyLastName : RawContact :=
  ⟨none, none, some "Doe", none, none, none, none, none, none, none⟩

/-- The payload `rawOnlyLastName` validates to (`source` defaulted). -/
def payloadOnlyLastName : ContactPayload :=
  ⟨none, none, "Doe", none, none, none, none, none, none, "ios-contact"⟩

/-! ### Helper lemmas -/

theorem head?_filter_eq_find? {α : Type} (p : α → Bool) (xs : List α) :
    (xs.filter p).head? = xs.find? p := by
  induction xs with
  | nil => rfl
  | cons x xs ih =>
    cases h : p x <;> simp [List.filter_cons, List.find?_cons, h, ih]

theorem optTruthy_isSome_iff (o : Option String) :
    (optTruthy o).isSome = true ↔ ∃ s, o = some s ∧ s ≠ "" := by
  cases o with
  | none => simp [optTruthy]
  | some s => by_cases h : s = "" <;> simp [optTruthy, h]

theorem optTruthy_eq_some_of {o : Option String} {s : String}
    (h : o = some s) (hs : s ≠ "") : optTruthy o = some s := by
  subst h
  simp [optTruthy, hs]

theorem appendAddressField_eq (acc : String) (f : Option String) :
    appendAddressField acc f = acc ++ truthySubField f := by
  cases f with
  | none => simp [appendAddressField, truthySubField]
  | some v =>
    by_cases h : v = "" <;>
      simp [appendAddressField, truthySubField, h, String.append_assoc]

theorem buildAddress_some (a : AddressEntry) :
    buildAddress (some a) =
      truthySubField a.street ++ truthySubField a.zip ++
        truthySubField a.city ++ truthySubField a.country := by
  simp [buildAddress, appendAddressField_eq, String.empty_append, String.append_assoc]

theorem isSome_ite {α : Type} (c : Bool) (v : α) :
    (if c then some v else none).isSome = c := by
  cases c <;> simp

/-! ### Claims -/

/-- Claim C3: for each labeled collection (emails, phones) and each target
label, the selected value is the value of the first entry in input-array
order whose label matches (`List.find?`), absent when no entry matches;
later matching duplicates are dropped.  The mobile number is the number of
the first phone labeled `"iPhone"` or `"Mobile"`; for a phones array labeled
`"iPhone"` then `"Mobile"` it equals the `"iPhone"` entry's number. -/
theorem selection_picks_first_match (p : ContactPayload) :
    workEmail p = p.emails.bind (fun es => (es.find? fun e => e.label == "Work").map (·.email))
  ∧ homeEmail p = p.emails.bind (fun es => (es.find? fun e => e.label == "Home").map (·.email))
  ∧ mainPhone p = p.phones.bind (fun ps => (ps.find? fun ph => ph.label == "Main").map (·.number))
  ∧ workPhone p = p.phones.bind (fun ps => (ps.find? fun ph => ph.label == "Work").map (·.number))
  ∧ mobilePhone p = p.phones.bind (fun ps =>
      (ps.find? fun ph => ph.label == "iPhone" || ph.label == "Mobile").map (·.number))
  ∧ homePhone p = p.phones.bind (fun ps => ps.find? fun ph => ph.label == "Home")
  ∧ (∀ es, p.emails = some es → (∀ e ∈ es, e.label ≠ "Work") → workEmail p = none)
  ∧ (∀ n1 n2 rest, p.phones = some (⟨"iPhone", n1⟩ :: ⟨"Mobile", n2⟩ :: rest) →
      mobilePhone p = some n1) := by
  refine ⟨?_, ?_, ?_, ?_, ?_, ?_, ?_, ?_⟩
  · simp [workEmail, head?_filter_eq_find?]
  · simp [homeEmail, head?_filter_eq_find?]
  · simp [mainPhone, head?_filter_eq_find?]
  · simp [workPhone, head?_filter_eq_find?]
  · simp [mobilePhone, head?_filter_eq_find?]
  · simp [homePhone, head?_filter_eq_find?]
  · intro es hes hnone
    simp [workEmail, hes]
    exact hnone
  · intro n1 n2 rest hp
    simp [mobilePhone, hp, List.filter_cons]

/-- Claim C3 witness: on `payloadPhones`, no `"Work"`-labeled email exists so
the work email is absent, and the mobile number is the `"iPhone"` entry's. -/
theorem selection_picks_first_match_witness :
    workEmail payloadPhones = none ∧ mobilePhone payloadPhones = some "111" := by
  have h := selection_picks_first_match payloadPhones
  refine ⟨h.2.2.2.2.2.2.1 [⟨"a@b.co", "Home"⟩] rfl ?_, h.2.2.2.2.2.2.2 "111" "222" [] rfl⟩
  intro e he
  have : e = (⟨"a@b.co", "Home"⟩ : EmailEntry) := by simpa using he
  subst this
  decide

/-- Claim C4 counterexample: the address `addrEmptyStreet` has a *present*
(but empty) `street` sub-field; the code's derived string `"Paris France "`
differs from the claimed concatenation (each present sub-field followed by a
trailing space), which would be `" Paris France "`. -/
theorem address_concat_counterexample :
    addrEmptyStreet.street = some "" ∧
    buildAddress (some addrEmptyStreet) = "Paris France " ∧
    specAddressConcat addrEmptyStreet = " Paris France " ∧
    buildAddress (some addrEmptyStreet) ≠ specAddressConcat addrEmptyStreet := by
  refine ⟨rfl, rfl, rfl, ?_⟩
  decide

/-- Claim C4 (amended): the derived display string concatenates the
sub-fields in fixed order street, zip, city, country, each present
*non-empty* sub-field followed by a trailing space, absent or empty
sub-fields omitted with no placeholder; for an address with only `city` and
`country` present (and non-empty) the string is `"<city> <country> "`. -/
theorem address_string_shape (a : AddressEntry) (city country : String)
    (hc : city ≠ "") (hco : country ≠ "") :
    buildAddress (some a) =
      truthySubField a.street ++ truthySubField a.zip ++
        truthySubField a.city ++ truthySubField a.country
  ∧ buildAddress none = ""
  ∧ buildAddress (some ⟨some city, none, some country, none, none, some "Home"⟩)
      = city ++ " " ++ country ++ " " := by
  refine ⟨buildAddress_some a, rfl, ?_⟩
  simp [buildAddress_some, truthySubField, hc, hco, String.empty_append, String.append_assoc]

/-- Claim C4 witness: the amended shape evaluated at a concrete address with
only city `"Malibu"` and country `"USA"` present. -/
theorem address_string_shape_witness :
    buildAddress (some ⟨some "Malibu", none, some "USA", none, none, some "Home"⟩)
      = "Malibu" ++ " " ++ "USA" ++ " " :=
  (address_string_shape addrEmptyStreet "Malibu" "USA" (by decide) (by decide)).2.2

/-- Claim C2 counterexample: the payload whose `firstName` is the *present*
empty string.  Its source value is present, yet the property set omits the
`First Name` field: the spread guard `firstName && {...}` treats `""` as
absent, refuting "includes a field if and only if its source value is
present". -/
theorem properties_presence_counterexample :
    payloadEmptyFirst.firstName = some "" ∧
    (buildProperties payloadEmptyFirst none).firstNameText = none :=
  ⟨rfl, rfl⟩

/-- Claim C2 (amended): a string-sourced field of the property set is
included exactly when its source value is present *and non-empty*
(JavaScript-truthy), and then carries that value; the home-phone field is
keyed on the presence of the selected `"Home"` phone entry (carrying its
number), and the two address fields on the presence of the selected address
entries.  Absent fields are omitted entirely (`none`), never sent as null. -/
theorem properties_presence (p : ContactPayload) (orgId : Option String)
    (horg : (optTruthy p.organization).isSome = true → orgId.isSome = true) :
    ((buildProperties p orgId).firstNameText.isSome = true ↔ ∃ s, p.firstName = some s ∧ s ≠ "")
  ∧ (∀ s, p.firstName = some s → s ≠ "" → (buildProperties p orgId).firstNameText = some s)
  ∧ ((buildProperties p orgId).emailWork.isSome = true ↔ ∃ s, workEmail p = some s ∧ s ≠ "")
  ∧ (∀ s, workEmail p = some s → s ≠ "" → (buildProperties p orgId).emailWork = some s)
  ∧ ((buildProperties p orgId).emailHome.isSome = true ↔ ∃ s, homeEmail p = some s ∧ s ≠ "")
  ∧ (∀ s, homeEmail p = some s → s ≠ "" → (buildProperties p orgId).emailHome = some s)
  ∧ ((buildProperties p orgId).phoneMain.isSome = true ↔ ∃ s, mainPhone p = some s ∧ s ≠ "")
  ∧ (∀ s, mainPhone p = some s → s ≠ "" → (buildProperties p orgId).phoneMain = some s)
  ∧ ((buildProperties p orgId).phoneWork.isSome = true ↔ ∃ s, workPhone p = some s ∧ s ≠ "")
  ∧ (∀ s, workPhone p = some s → s ≠ "" → (buildProperties p orgId).phoneWork = some s)
  ∧ ((buildProperties p orgId).phoneMobile.isSome = true ↔ ∃ s, mobilePhone p = some s ∧ s ≠ "")
  ∧ (∀ s, mobilePhone p = some s → s ≠ "" → (buildProperties p orgId).phoneMobile = some s)
  ∧ (buildProperties p orgId).phoneHome = (homePhone p).map (·.number)
  ∧ (buildProperties p orgId).addressWork.isSome = (workAddressData p).isSome
  ∧ (buildProperties p orgId).addressHome.isSome = (homeAddressData p).isSome
  ∧ ((buildProperties p orgId).iosNotes.isSome = true ↔ ∃ s, p.note = some s ∧ s ≠ "")
  ∧ (∀ s, p.note = some s → s ≠ "" → (buildProperties p orgId).iosNotes = some s)
  ∧ ((buildProperties p orgId).websiteUrl.isSome = true ↔ ∃ s, p.website = some s ∧ s ≠ "")
  ∧ (∀ s, p.website = some s → s ≠ "" → (buildProperties p orgId).websiteUrl = some s)
  ∧ ((buildProperties p orgId).jobTitleText.isSome = true ↔ ∃ s, p.jobTitle = some s ∧ s ≠ "")
  ∧ (∀ s, p.jobTitle = some s → s ≠ "" → (buildProperties p orgId).jobTitleText = some s)
  ∧ ((buildProperties p orgId).organizationRel.isSome = true ↔
      ∃ s, p.organization = some s ∧ s ≠ "") := by
  refine ⟨optTruthy_isSome_iff _, fun s h hs => optTruthy_eq_some_of h hs,
    optTruthy_isSome_iff _, fun s h hs => optTruthy_eq_some_of h hs,
    optTruthy_isSome_iff _, fun s h hs => optTruthy_eq_some_of h hs,
    optTruthy_isSome_iff _, fun s h hs => optTruthy_eq_some_of h hs,
    optTruthy_isSome_iff _, fun s h hs => optTruthy_eq_some_of h hs,
    optTruthy_isSome_iff _, fun s h hs => optTruthy_eq_some_of h hs,
    rfl, isSome_ite _ _, isSome_ite _ _,
    optTruthy_isSome_iff _, fun s h hs => optTruthy_eq_some_of h hs,
    optTruthy_isSome_iff _, fun s h hs => optTruthy_eq_some_of h hs,
    optTruthy_isSome_iff _, fun s h hs => optTruthy_eq_some_of h hs,
    ?_⟩
  have hrel : (buildProperties p orgId).organizationRel
      = if (optTruthy p.organization).isSome then orgId else none := rfl
  by_cases hc : (optTruthy p.organization).isSome = true
  · rw [hrel, if_pos hc]
    constructor
    · intro _
      exact (optTruthy_isSome_iff _).mp hc
    · intro _
      exact horg hc
  · rw [hrel, if_neg hc]
    simp only [Option.isSome_none, Bool.false_eq_true, false_iff]
    rintro ⟨s, hs, hne⟩
    exact hc ((optTruthy_isSome_iff _).mpr ⟨s, hs, hne⟩)

/-- Claim C2 witness: on `payloadJane` (first name `"Jane"`, no
organization) the `First Name` field is present with value `"Jane"`. -/
theorem properties_presence_witness :
    (buildProperties payloadJane none).firstNameText = some "Jane" := by
  have h := properties_presence payloadJane none (by simp [payloadJane, optTruthy])
  exact h.2.1 "Jane" rfl (by decide)

/-- Claim C5 counterexample: the payload whose `organization` is the
*present* empty string.  The resolver makes no store call (so the
organizations collection is not queried, contrary to "if it is present, the
organizations collection is queried") and the property set has no
`Organization` relation. -/
theorem organization_counterexample :
    payloadEmptyOrg.organization = some "" ∧
    resolveOrganization stEmpty payloadEmptyOrg.organization = (none, []) ∧
    (buildProperties payloadEmptyOrg
        (resolveOrganization stEmpty payloadEmptyOrg.organization).1).organizationRel = none :=
  ⟨rfl, rfl, rfl⟩

/-- Claim C5 (amended): if the organization name is absent no lookup or
creation happens and the `Organization` relation is omitted; if it is
present *and non-empty*, the organizations collection is queried for an
exact title match, the first matched id is used when results exist,
otherwise an organization is created and its new id used, and the
`Organization` relation references exactly that id. -/
theorem organization_resolution (st : Store) (p : ContactPayload) :
    (p.organization = none →
      resolveOrganization st p.organization = (none, []) ∧
      (buildProperties p (resolveOrganization st p.organization).1).organizationRel = none)
  ∧ (∀ name, p.organization = some name → name ≠ "" →
      (∀ id rest, st.orgQueryResults name = id :: rest →
        resolveOrganization st p.organization = (some id, [.queryOrganizations name]) ∧
        (buildProperties p (some id)).organizationRel = some id)
      ∧ (st.orgQueryResults name = [] →
        resolveOrganization st p.organization =
          (some (st.orgCreateId name), [.queryOrganizations name, .createOrganization name]) ∧
        (buildProperties p (some (st.orgCreateId name))).organizationRel
          = some (st.orgCreateId name))) := by
  constructor
  · intro h
    have h1 : resolveOrganization st p.organization = (none, []) := by
      rw [h]
      rfl
    refine ⟨h1, ?_⟩
    have h2 : (buildProperties p (resolveOrganization st p.organization).1).organizationRel
        = if (optTruthy p.organization).isSome then
            (resolveOrganization st p.organization).1 else none := rfl
    rw [h2, h]
    rfl
  · intro name h hne
    have htr : optTruthy p.organization = some name := optTruthy_eq_some_of h hne
    constructor
    · intro id rest hq
      have h1 : resolveOrganization st p.organization = (some id, [.queryOrganizations name]) := by
        simp [resolveOrganization, htr, hq]
      refine ⟨h1, ?_⟩
      have h2 : (buildProperties p (some id)).organizationRel
          = if (optTruthy p.organization).isSome then some id else none := rfl
      rw [h2, htr]
      rfl
    · intro hq
      have h1 : resolveOrganization st p.organization
          = (some (st.orgCreateId name), [.queryOrganizations name, .createOrganization name]) := by
        simp [resolveOrganization, htr, hq]
      refine ⟨h1, ?_⟩
      have h2 : (buildProperties p (some (st.orgCreateId name))).organizationRel
          = if (optTruthy p.organization).isSome then some (st.orgCreateId name) else none := rfl
      rw [h2, htr]
      rfl

/-- Claim C5 witness: resolving `"Acme"` against the store with no existing
organizations queries, then creates, and the relation carries the created
id. -/
theorem organization_resolution_witness :
    resolveOrganization stEmpty payloadAcme.organization =
      (some (stEmpty.orgCreateId "Acme"),
        [.queryOrganizations "Acme", .createOrganization "Acme"]) ∧
    (buildProperties payloadAcme (some (stEmpty.orgCreateId "Acme"))).organizationRel
      = some (stEmpty.orgCreateId "Acme") :=
  ((organization_resolution stEmpty payloadAcme).2 "Acme" rfl (by decide)).2 rfl

/-- Claim C6: a pathname starting with `"/public"` passes the gate
unconditionally; otherwise the request proceeds iff the `Authorization`
header exactly equals the configured secret, a missing or mismatching header
yielding 401 `{"error":"Unauthorized"}` with no store calls; `GET /public`
without a header answers 200 `"Hello World"`. -/
theorem gate_public_prefix (path password : String) (auth : Option String) :
    (pathStartsWithPublic path = true → protect path auth password = none)
  ∧ (pathStartsWithPublic path = false →
      (protect path auth password = none ↔ auth = some password))
  ∧ (pathStartsWithPublic path = false → auth ≠ some password →
      protect path auth password = some ⟨401, .unauthorizedJson⟩)
  ∧ handleGetPublic auth password = ⟨200, .text "Hello World"⟩
  ∧ (∀ emailOk st body, auth ≠ some password →
      requestIosContact emailOk st password auth body = (⟨401, .unauthorizedJson⟩, [])) := by
  refine ⟨?_, ?_, ?_, ?_, ?_⟩
  · intro h
    simp [protect, h]
  · intro h
    by_cases ha : auth = some password <;> simp [protect, h, ha]
  · intro h hne
    simp [protect, h, hne]
  · have hp : pathStartsWithPublic "/public" = true := rfl
    simp [handleGetPublic, protect, hp]
  · intro emailOk st body hne
    have hp : pathStartsWithPublic "/ios-contact" = false := rfl
    simp [requestIosContact, protect, hp, hne]

/-- Claim C6 witness: a request to `/ios-contact` with no header is refused
with 401, and `GET /public` with no header answers 200 `"Hello World"`. -/
theorem gate_public_prefix_witness :
    protect "/ios-contact" none "secret" = some ⟨401, .unauthorizedJson⟩ ∧
    handleGetPublic none "secret" = ⟨200, .text "Hello World"⟩ := by
  have h := gate_public_prefix "/ios-contact" "secret" none
  exact ⟨h.2.2.1 rfl (by simp), h.2.2.2.1⟩

/-- Claim C7: a Notion client error with the unauthorized code translates to
401 with the distinguished message; every other escaped error translates to
500 `{message:"An error occurred"}`; and every translated response is one of
those two fixed bodies, so no internal error detail is ever returned. -/
theorem error_translation :
    (∀ code, onError (.notionClient code) =
      if code == "unauthorized"
      then ⟨401, .errorMsg "Notion responded with an unauthorized error"⟩
      else ⟨500, .errorMsg "An error occurred"⟩)
  ∧ (∀ details, onError (.jsError details) = ⟨500, .errorMsg "An error occurred"⟩)
  ∧ (∀ e, onError e = ⟨401, .errorMsg "Notion responded with an unauthorized error"⟩ ∨
      onError e = ⟨500, .errorMsg "An error occurred"⟩) := by
  refine ⟨fun _ => rfl, fun _ => rfl, ?_⟩
  intro e
  cases e with
  | notionClient code =>
    by_cases h : (code == "unauthorized") = true
    · left
      simp [onError, h]
    · right
      simp [onError, h]
  | jsError d =>
    right
    rfl

/-- Claim C1: the handler queries the contacts collection with the
conjunctive filter (Last Name equals the payload's `lastName`) and (First
Name equals the payload's `firstName`, or `""` when absent); zero results →
create a contact with the full property set and answer 201
`{message:"Successfully created contact", pageId = the created record's id,
firstName, lastName}`; one or more results → update only the first result
and answer 200 `{message:"Successfully updated contact", firstName,
lastName, pageId = the first result's id}`. -/
theorem upsert_contact (st : Store) (p : ContactPayload) :
    (st.contactQueryResults p.lastName (p.firstName.getD "") = [] →
      handleIosContact st p =
        (⟨201, .contactResult "Successfully created contact" st.contactCreateId
            p.firstName p.lastName⟩,
          (resolveOrganization st p.organization).2 ++
            [.queryContacts p.lastName (p.firstName.getD ""),
             .createContact (buildProperties p (resolveOrganization st p.organization).1)]))
  ∧ (∀ firstId rest,
      st.contactQueryResults p.lastName (p.firstName.getD "") = firstId :: rest →
      handleIosContact st p =
        (⟨200, .contactResult "Successfully updated contact" firstId
            p.firstName p.lastName⟩,
          (resolveOrganization st p.organization).2 ++
            [.queryContacts p.lastName (p.firstName.getD ""),
             .updateContact firstId
               (buildProperties p (resolveOrganization st p.organization).1)])) := by
  constructor
  · intro h
    simp [handleIosContact, h]
  · intro firstId rest h
    simp [handleIosContact, h]

/-- Claim C1 witness: for `{lastName:"Doe", firstName:"Jane"}`, the store
with no match leads to creation (201, `pageId` the new record's id) and the
store with an existing `"abc123"` record leads to an update of `"abc123"`
(200, `pageId:"abc123"`). -/
theorem upsert_contact_witness :
    handleIosContact stEmpty payloadJane =
      (⟨201, .contactResult "Successfully created contact" "new-id" (some "Jane") "Doe"⟩,
        [.queryContacts "Doe" "Jane",
         .createContact (buildProperties payloadJane none)]) ∧
    handleIosContact stFound payloadJane =
      (⟨200, .contactResult "Successfully updated contact" "abc123" (some "Jane") "Doe"⟩,
        [.queryContacts "Doe" "Jane",
         .updateContact "abc123" (buildProperties payloadJane none)]) := by
  constructor
  · exact (upsert_contact stEmpty payloadJane).1 rfl
  · exact (upsert_contact stFound payloadJane).2 "abc123" [] rfl

theorem validate_eq_none_of_bad {emailOk : String → Bool} {r : RawContact}
    (h : r.lastName = none ∨
      ∃ es, r.emails = some es ∧ ∃ e ∈ es, emailOk e.email = false) :
    validate emailOk r = none := by
  rcases h with h | ⟨es, hes, e, he, hbad⟩
  · simp [validate, h]
  · cases hln : r.lastName with
    | none => simp [validate, hln]
    | some ln =>
      have hall : ((r.emails.getD []).all fun e => emailOk e.email) = false := by
        rw [hes]
        refine List.all_eq_false.mpr ⟨e, he, ?_⟩
        simp [hbad]
      simp [validate, hln, hall]

theorem validateBody_eq_none_of_mem {emailOk : String → Bool} {r : RawContact}
    {body : List RawContact} (hmem : r ∈ body) (hr : validate emailOk r = none) :
    validateBody emailOk body = none := by
  induction body with
  | nil => cases hmem
  | cons x xs ih =>
    rcases List.mem_cons.mp hmem with h | h
    · subst h
      simp [validateBody, hr]
    · cases hx : validate emailOk x with
      | none => simp [validateBody, hx]
      | some q => simp [validateBody, hx, ih h]

/-- Claim C8: a body containing an element that lacks `lastName`, or whose
`emails` contain an entry rejected by the email-syntax predicate, fails
validation; the pipeline answers the validation failure and makes no
external-store call. -/
theorem validation_rejects (emailOk : String → Bool) (st : Store) (body : List RawContact)
    (h : ∃ r ∈ body, r.lastName = none ∨
        ∃ es, r.emails = some es ∧ ∃ e ∈ es, emailOk e.email = false) :
    validateBody emailOk body = none ∧
    postIosContact emailOk st body = (⟨400, .validationFailure⟩, []) := by
  obtain ⟨r, hmem, hbad⟩ := h
  have hnone := validateBody_eq_none_of_mem hmem (validate_eq_none_of_bad hbad)
  refine ⟨hnone, ?_⟩
  simp [postIosContact, hnone]

/-- Claim C8 witness: the one-element body missing `lastName` is rejected
with no store call. -/
theorem validation_rejects_witness :
    validateBody (fun _ => true) [rawNoLastName] = none ∧
    postIosContact (fun _ => true) stEmpty [rawNoLastName]
      = (⟨400, .validationFailure⟩, []) :=
  validation_rejects (fun _ => true) stEmpty [rawNoLastName]
    ⟨rawNoLastName, by simp, Or.inl rfl⟩

/-- Claim C9: the empty array `[]` passes validation (the array schema has
no minimum length); the handler's destructuring of the first element then
throws, the error translator answers 500 `{message:"An error occurred"}`,
and no store call is made. -/
theorem empty_body_destructure (emailOk : String → Bool) (st : Store) :
    validateBody emailOk [] = some [] ∧
    postIosContact emailOk st []
      = (onError (.jsError "TypeError: cannot destructure"), []) ∧
    postIosContact emailOk st [] = (⟨500, .errorMsg "An error occurred"⟩, []) :=
  ⟨rfl, rfl, rfl⟩

/-- Claim C10: validation admits only the literal `"ios-contact"` for the
source tag (defaulting it when absent), and the property-set builder rewrites
it to the select name `"iOS Contact"`, so every valid payload's property set
carries `Source` select `"iOS Contact"`. -/
theorem source_select_invariant (emailOk : String → Bool) (r : RawContact)
    (p : ContactPayload) (h : validate emailOk r = some p) :
    p.source = "ios-contact" ∧
    (∀ s, r.source = some s → s = "ios-contact") ∧
    (∀ orgId, (buildProperties p orgId).sourceSelect = "iOS Contact") := by
  have hmain : p.source = "ios-contact" ∧ (∀ s, r.source = some s → s = "ios-contact") := by
    cases hln : r.lastName with
    | none => simp [validate, hln] at h
    | some ln =>
      by_cases hall : ((r.emails.getD []).all fun e => emailOk e.email) = true
      · cases hso : r.source with
        | none =>
          simp [validate, hln, hall, hso] at h
          subst h
          refine ⟨rfl, ?_⟩
          intro s hs
          cases hs
        | some s =>
          by_cases hs : s = "ios-contact"
          · simp [validate, hln, hall, hso, hs] at h
            subst h
            refine ⟨rfl, ?_⟩
            intro s' hs'
            cases hs'
            exact hs
          · simp [validate, hln, hall, hso, hs] at h
      · simp [validate, hln, hall] at h
  refine ⟨hmain.1, hmain.2, ?_⟩
  intro orgId
  have e1 : (buildProperties p orgId).sourceSelect
      = if p.source == "ios-contact" then "iOS Contact" else p.source := rfl
  rw [e1, hmain.1]
  rfl

/-- Claim C10 witness: the raw element with only `lastName` present
validates with the defaulted source and its property set carries `Source`
select `"iOS Contact"`. -/
theorem source_select_invariant_witness :
    payloadOnlyLastName.source = "ios-contact" ∧
    (buildProperties payloadOnlyLastName none).sourceSelect = "iOS Contact" := by
  have h := source_select_invariant (fun _ => true) rawOnlyLastName payloadOnlyLastName rfl
  exact ⟨h.1, h.2.2 none⟩

end FrederiSync
